import Mathlib

/-!
# Verification of the tiered RAG chat pipeline

A shallow embedding of the tiered answer-resolution pipeline of the
`chatbot` repository:

* `judgeContextRelevance` — the relevance judge (`lib/gemini.ts`);
* `generateInternalAnswer` / `generateWebSearchAnswer` — the two
  streaming answer generators (`lib/gemini.ts`);
* `generateEmbedding` — the embedding wrapper (`lib/openai.ts`);
* `match_inbox_questions` — the pending-queue duplicate query
  (`supabase/add_inbox_embeddings.sql`);
* `addToAdminQueue` and `POST` — the dedup queue writer and the chat
  route orchestrator (`app/api/chat/route.ts`);
* knowledge-base create/update (`app/api/admin/knowledge/route.ts`).

External services (embedding provider, generation model, vector store
RPCs) are modelled as explicit oracles / call-outcome parameters:
`Except String α` for a call that either throws or returns, and
record-of-events values for streaming calls.  Streams are modelled as
the finite list of values yielded, in order.  Vector similarity scores
are rationals (the claims are threshold comparisons, not float
arithmetic).
-/

/-- Substring test on character lists: `pat` occurs inside `l`. -/
def charsContains (pat : List Char) : List Char → Bool
  | [] => pat.isPrefixOf []
  | c :: rest => pat.isPrefixOf (c :: rest) || charsContains pat rest

/-- JS `String.prototype.includes`: substring containment as a Bool. -/
def strContains (s pat : String) : Bool :=
  charsContains pat.toList s.toList

/-- JS `String.prototype.trim`: strip whitespace from both ends. -/
def jsTrim (s : String) : String :=
  ⟨((s.toList.dropWhile Char.isWhitespace).reverse.dropWhile Char.isWhitespace).reverse⟩

/-- JS `String.prototype.toUpperCase` (ASCII range, which covers the
YES/NO tokens the judge inspects). -/
def jsToUpper (s : String) : String :=
  ⟨s.toList.map Char.toUpper⟩

/-! ## The relevance judge (`judgeContextRelevance`, lib/gemini.ts) -/

/-- The judge prompt built at lib/gemini.ts lines 25–33. -/
def judgePrompt (context question : String) : String :=
  "You are evaluating if the provided context answers the question.\n\nContext:\n"
    ++ context
    ++ "\n\nQuestion: " ++ question
    ++ "\n\nDoes the context provide a CLEAR and COMPLETE answer to this specific question?\nReply ONLY with \x27YES\x27 or \x27NO\x27."

/-- Result of one judge invocation: the returned verdict (the source
returns the string "YES" or "NO") together with the number of
generation calls the invocation performed. -/
structure JudgeResult where
  verdict : String
  genCalls : Nat
deriving DecidableEq, Repr

/-- Model of `judgeContextRelevance` (lib/gemini.ts lines 9–65).  `gen` is the
outcome of `model.generateContent` on a given prompt: `.ok raw` models a
reply with text `raw`, `.error e` models a thrown error. -/
def judgeContextRelevance (question : String) (dbChunks : List String)
    (gen : String → Except String String) : JudgeResult :=
  if dbChunks.isEmpty then
    ⟨"NO", 0⟩
  else
    let context := String.intercalate "\n\n" dbChunks
    match gen (judgePrompt context question) with
    | Except.error _ => ⟨"NO", 1⟩
    | Except.ok rawResponse =>
      let response := jsToUpper (jsTrim rawResponse)
      let isRelevant := strContains response "YES" && !(strContains response "NO")
      ⟨if isRelevant then "YES" else "NO", 1⟩

example :
    judgeContextRelevance "q" ["a"] (fun _ => Except.ok " yes ") = ⟨"YES", 1⟩ := by
  decide

example :
    judgeContextRelevance "q" ["a"] (fun _ => Except.ok "YES, but also NO") = ⟨"NO", 1⟩ := by
  decide

example :
    judgeContextRelevance "q" ["a"] (fun _ => Except.error "boom") = ⟨"NO", 1⟩ := by
  decide

example :
    judgeContextRelevance "q" [] (fun _ => Except.ok "YES") = ⟨"NO", 0⟩ := by
  decide

/-- C1: on a non-empty chunk list the judge verdict is `"YES"` exactly
when the generation call returned a reply whose trimmed uppercase form
contains `"YES"` and not `"NO"`; every verdict is `"YES"` or `"NO"`. -/
theorem judge_decision_rule (question c : String) (cs : List String)
    (gen : String → Except String String) :
    (((judgeContextRelevance question (c :: cs) gen).verdict = "YES") ↔
      (∃ raw, gen (judgePrompt (String.intercalate "\n\n" (c :: cs)) question)
          = Except.ok raw ∧
        strContains (jsToUpper (jsTrim raw)) "YES" = true ∧
        strContains (jsToUpper (jsTrim raw)) "NO" = false)) ∧
    ((judgeContextRelevance question (c :: cs) gen).verdict = "YES" ∨
      (judgeContextRelevance question (c :: cs) gen).verdict = "NO") := by
  unfold judgeContextRelevance
  simp only [List.isEmpty_cons, Bool.false_eq_true, if_false]
  cases hg : gen (judgePrompt (String.intercalate "\n\n" (c :: cs)) question) with
  | error e =>
    dsimp only
    refine ⟨⟨fun h => absurd h (by decide), ?_⟩, Or.inr rfl⟩
    rintro ⟨raw, hraw, -, -⟩
    exact Except.noConfusion hraw
  | ok raw =>
    dsimp only
    by_cases hd :
        (strContains (jsToUpper (jsTrim raw)) "YES"
          && !strContains (jsToUpper (jsTrim raw)) "NO") = true
    · rw [if_pos hd]
      simp only [Bool.and_eq_true, Bool.not_eq_true'] at hd
      exact ⟨⟨fun _ => ⟨raw, rfl, hd.1, hd.2⟩, fun _ => rfl⟩, Or.inl rfl⟩
    · rw [if_neg hd]
      refine ⟨⟨fun h => absurd h (by decide), ?_⟩, Or.inr rfl⟩
      rintro ⟨raw', hraw', hy', hn'⟩
      injection hraw' with he
      subst he
      exact absurd (by rw [hy', hn']; rfl) hd

/-! ## Streaming answer generators (lib/gemini.ts)

A streaming generator is modelled as the finite list of strings it
yields, in order.  The underlying generation stream is an oracle from
the prompts to a record of the events received, plus an optional error
(`failed = some e` models the stream call throwing after the recorded
events were received; the `catch` block then yields the error line). -/

/-- Outcome of one `generateContentStream` call for the grounded path:
the text chunks received, and whether the call then threw. -/
structure StreamOutcome where
  received : List String
  failed : Option String
deriving DecidableEq, Repr

/-- A web citation (grounding metadata `web.title` / `web.uri`); a
missing or empty field is modelled as `""` (JS falsy). -/
structure Citation where
  title : String
  url : String
deriving DecidableEq, Repr

/-- One event of the web-search generation stream: the text chunk (`""`
when absent) and the grounding citations attached to this event. -/
structure WebChunk where
  text : String
  citations : List Citation
deriving DecidableEq, Repr

/-- Outcome of one `generateContentStream` call for the web path. -/
structure WebStreamOutcome where
  events : List WebChunk
  failed : Option String
deriving DecidableEq, Repr

/-- System prompt of the grounded generator (lib/gemini.ts line 79). -/
def internalSystemPrompt : String :=
  "You are the Pirani AI. Answer using ONLY the context provided. Do not use outside knowledge."

/-- User prompt of the grounded generator (lib/gemini.ts lines 81–86). -/
def internalUserPrompt (context question : String) : String :=
  "Context:\n" ++ context ++ "\n\nQuestion: " ++ question
    ++ "\n\nAnswer the question using ONLY the information from the context above."

/-- The grounded-path footer (lib/gemini.ts line 122). -/
def internalFooter : String :=
  "\n\n---\n**Source:** Database (Internal Knowledge Base)"

/-- Model of `generateInternalAnswer` (lib/gemini.ts lines 71–127): yield each
non-empty text chunk verbatim, then the database footer; on a thrown
error, yield the error line instead of the footer. -/
def generateInternalAnswer (question : String) (dbChunks : List String)
    (gen : String → String → StreamOutcome) : List String :=
  let context := String.intercalate "\n\n" dbChunks
  let out := gen internalSystemPrompt (internalUserPrompt context question)
  let yielded := out.received.filter (fun t => t != "")
  match out.failed with
  | some _ => yielded ++ ["I encountered an error generating the answer."]
  | none => yielded ++ [internalFooter]

/-- System prompt of the web-search generator (lib/gemini.ts line 140). -/
def webSystemPrompt : String :=
  "You are the Pirani AI. Search for the answer. Context: Pirani Life (sustainable tumblers). Verify facts before answering."

/-- The citation guard of lib/gemini.ts line 175: both `web.uri` and
`web.title` must be present (truthy). -/
def citationOk (c : Citation) : Bool :=
  c.url != "" && c.title != ""

/-- One push step of the citation collector (lib/gemini.ts lines
176–180): append unless a source with the same URL was already seen. -/
def addCitation (sources : List Citation) (c : Citation) : List Citation :=
  if sources.any (fun s => s.url == c.url) then sources else sources ++ [c]

/-- The citation collection loop of `generateWebSearchAnswer`
(lib/gemini.ts lines 161–184), restricted to its effect on `sources`. -/
def collectSources (events : List WebChunk) : List Citation :=
  events.foldl
    (fun sources ev =>
      ev.citations.foldl
        (fun sources c => if citationOk c then addCitation sources c else sources)
        sources)
    []

/-- JS `Array.from(new Map(sources.map(s => [s.url, s])).values())`
(lib/gemini.ts line 191): keys in first-occurrence order, each carrying
the last value set for that key.  `seen` records the keys emitted so
far. -/
def jsMapDedupAux (seen : List Citation) : List Citation → List Citation
  | [] => []
  | c :: rest =>
      if seen.any (fun s => s.url == c.url) then
        jsMapDedupAux seen rest
      else
        ((c :: rest).filter (fun s => s.url == c.url)).getLastD c ::
          jsMapDedupAux (seen ++ [c]) rest

/-- See `jsMapDedupAux`. -/
def jsMapDedup (sources : List Citation) : List Citation :=
  jsMapDedupAux [] sources

/-- The numbered source lines of the web footer (lib/gemini.ts lines
194–197). -/
def sourceLines (uniqueSources : List Citation) : List String :=
  uniqueSources.enum.map
    (fun p => toString (p.1 + 1) ++ ". [" ++ p.2.title ++ "](" ++ p.2.url ++ ")\n")

/-- The web-path footer chunks (lib/gemini.ts lines 190–201). -/
def webSearchFooter (sources : List Citation) : List String :=
  if sources.length > 0 then
    "\n\n---\n**Sources:**\n" :: sourceLines (jsMapDedup sources)
  else
    ["\n\n---\n**Source:** Google Search"]

/-- Model of `generateWebSearchAnswer` (lib/gemini.ts lines 133–206). -/
def generateWebSearchAnswer (question : String)
    (gen : String → String → WebStreamOutcome) : List String :=
  let out := gen webSystemPrompt question
  let textYields := (out.events.map (fun e => e.text)).filter (fun t => t != "")
  match out.failed with
  | some _ => textYields ++ ["I encountered an error searching for the answer."]
  | none => textYields ++ webSearchFooter (collectSources out.events)

/-- The flat stream of qualifying citations, in arrival order. -/
def citeStream (events : List WebChunk) : List Citation :=
  ((events.map (fun e => e.citations)).flatten).filter citationOk

/-- Reference dedup, written from the words of the spec: keep a citation iff
its URL has not been seen before, preserving insertion order (`seen` is
the list of citations already kept). -/
def dedupFirstAux (seen : List Citation) : List Citation → List Citation
  | [] => []
  | c :: rest =>
      if seen.any (fun s => s.url == c.url) then dedupFirstAux seen rest
      else c :: dedupFirstAux (seen ++ [c]) rest

/-- First-occurrence-per-URL dedup (see `dedupFirstAux`). -/
def dedupFirst (l : List Citation) : List Citation :=
  dedupFirstAux [] l

example :
    collectSources [⟨"t", [⟨"T1", "u"⟩, ⟨"T2", "u"⟩]⟩] = [⟨"T1", "u"⟩] := by
  decide

lemma inner_collect_eq_filter (l : List Citation) (acc : List Citation) :
    l.foldl (fun sources c => if citationOk c then addCitation sources c else sources) acc
      = (l.filter citationOk).foldl addCitation acc := by
  induction l generalizing acc with
  | nil => rfl
  | cons c rest ih =>
    by_cases h : citationOk c = true
    · rw [List.foldl_cons, if_pos h, List.filter_cons_of_pos h, List.foldl_cons]
      exact ih _
    · rw [List.foldl_cons, if_neg h,
        List.filter_cons_of_neg (by simpa using h)]
      exact ih _

lemma collectSources_eq_foldl_aux (events : List WebChunk) (acc : List Citation) :
    events.foldl
      (fun sources ev =>
        ev.citations.foldl
          (fun sources c => if citationOk c then addCitation sources c else sources)
          sources)
      acc
      = (((events.map (fun e => e.citations)).flatten).filter citationOk).foldl
          addCitation acc := by
  induction events generalizing acc with
  | nil => rfl
  | cons ev rest ih =>
    rw [List.foldl_cons, List.map_cons, List.flatten_cons, List.filter_append,
      List.foldl_append, inner_collect_eq_filter]
    exact ih _

lemma collectSources_eq_foldl (events : List WebChunk) :
    collectSources events = (citeStream events).foldl addCitation [] :=
  collectSources_eq_foldl_aux events []

lemma foldl_addCitation_eq (cs : List Citation) (acc : List Citation) :
    cs.foldl addCitation acc = acc ++ dedupFirstAux acc cs := by
  induction cs generalizing acc with
  | nil => simp [dedupFirstAux]
  | cons c rest ih =>
    by_cases hany : acc.any (fun s => s.url == c.url) = true
    · have hstep : addCitation acc c = acc := by
        unfold addCitation; rw [if_pos hany]
      rw [List.foldl_cons, hstep, ih]
      simp only [dedupFirstAux, if_pos hany]
    · have hstep : addCitation acc c = acc ++ [c] := by
        unfold addCitation; rw [if_neg hany]
      rw [List.foldl_cons, hstep, ih]
      simp only [dedupFirstAux, if_neg hany, List.append_assoc,
        List.singleton_append]

lemma dedupFirstAux_urls_nodup : ∀ (l seen : List Citation),
    ((dedupFirstAux seen l).map (fun c => c.url)).Nodup ∧
    (∀ x ∈ dedupFirstAux seen l, seen.any (fun s => s.url == x.url) = false)
  | [], seen => by simp [dedupFirstAux]
  | c :: rest, seen => by
    by_cases hany : seen.any (fun s => s.url == c.url) = true
    · have he : dedupFirstAux seen (c :: rest) = dedupFirstAux seen rest := by
        simp only [dedupFirstAux]
        rw [if_pos hany]
      rw [he]
      exact dedupFirstAux_urls_nodup rest seen
    · have hfalse : seen.any (fun s => s.url == c.url) = false :=
        Bool.eq_false_iff.mpr hany
      have ih := dedupFirstAux_urls_nodup rest (seen ++ [c])
      simp only [dedupFirstAux, if_neg hany]
      constructor
      · simp only [List.map_cons, List.nodup_cons]
        refine ⟨?_, ih.1⟩
        intro hmem
        rcases List.mem_map.mp hmem with ⟨x, hx, hxe⟩
        have h2 := ih.2 x hx
        rw [List.any_append] at h2
        simp only [List.any_cons, List.any_nil, Bool.or_false] at h2
        have hcu := (Bool.or_eq_false_iff.mp h2).2
        exact beq_eq_false_iff_ne.mp hcu hxe.symm
      · intro x hx
        rcases List.mem_cons.mp hx with h1 | h2
        · subst h1; exact hfalse
        · have h2' := ih.2 x h2
          rw [List.any_append] at h2'
          exact (Bool.or_eq_false_iff.mp h2').1

lemma dedupFirst_urls_nodup (l : List Citation) :
    ((dedupFirst l).map (fun c => c.url)).Nodup :=
  (dedupFirstAux_urls_nodup l []).1

lemma jsMapDedupAux_eq_self : ∀ (l seen : List Citation),
    (∀ c ∈ l, seen.any (fun s => s.url == c.url) = false) →
    ((l.map (fun c => c.url)).Nodup) → jsMapDedupAux seen l = l
  | [], seen, _, _ => by simp [jsMapDedupAux]
  | c :: rest, seen, hseen, hnodup => by
    simp only [List.map_cons, List.nodup_cons] at hnodup
    have hany : seen.any (fun s => s.url == c.url) = false :=
      hseen c (List.mem_cons_self _ _)
    have hrest : ∀ s ∈ rest, (s.url == c.url) = false := by
      intro s hs
      refine beq_eq_false_iff_ne.mpr ?_
      intro he
      exact hnodup.1 (he ▸ List.mem_map_of_mem (fun c => c.url) hs)
    have h1 : rest.filter (fun s => s.url == c.url) = [] :=
      List.filter_eq_nil_iff.mpr (fun s hs => by simp [hrest s hs])
    simp only [jsMapDedupAux]
    rw [if_neg (Bool.eq_false_iff.mp hany), List.filter_cons_of_pos (by simp), h1]
    simp only [List.getLastD_cons, List.getLastD_nil]
    refine congrArg (List.cons c) ?_
    refine jsMapDedupAux_eq_self rest (seen ++ [c]) ?_ hnodup.2
    intro d hd
    rw [List.any_append]
    simp only [List.any_cons, List.any_nil, Bool.or_false]
    rw [hseen d (List.mem_cons_of_mem _ hd)]
    simp only [Bool.false_or]
    refine beq_eq_false_iff_ne.mpr ?_
    intro he
    exact hnodup.1 (by rw [he]; exact List.mem_map_of_mem (fun c => c.url) hd)

lemma jsMapDedup_eq_self (l : List Citation)
    (h : (l.map (fun c => c.url)).Nodup) : jsMapDedup l = l :=
  jsMapDedupAux_eq_self l [] (fun _ _ => rfl) h

lemma collectSources_eq_dedupFirst (events : List WebChunk) :
    collectSources events = dedupFirst (citeStream events) := by
  rw [collectSources_eq_foldl]
  unfold dedupFirst
  simpa using foldl_addCitation_eq (citeStream events) []

/-- C5: when the grounded generation stream completes without error, the
output is exactly the non-empty generation chunks verbatim followed by
the internal-knowledge-base footer as the terminal element. -/
theorem internal_stream_footer_last (question : String) (dbChunks : List String)
    (gen : String → String → StreamOutcome)
    (h : (gen internalSystemPrompt
        (internalUserPrompt (String.intercalate "\n\n" dbChunks) question)).failed
      = none) :
    generateInternalAnswer question dbChunks gen
      = ((gen internalSystemPrompt
            (internalUserPrompt (String.intercalate "\n\n" dbChunks) question)).received.filter
          (fun t => t != ""))
        ++ [internalFooter] ∧
    (generateInternalAnswer question dbChunks gen).getLast? = some internalFooter := by
  have hmain : generateInternalAnswer question dbChunks gen
      = ((gen internalSystemPrompt
            (internalUserPrompt (String.intercalate "\n\n" dbChunks) question)).received.filter
          (fun t => t != ""))
        ++ [internalFooter] := by
    simp only [generateInternalAnswer]
    rw [h]
  exact ⟨hmain, by rw [hmain]; exact List.getLast?_concat _⟩

/-- A concrete error-free grounded generation stream. -/
def genInternalOk : String → String → StreamOutcome :=
  fun _ _ => ⟨["Hello", "", " world"], none⟩

theorem internal_stream_footer_last_witness :
    generateInternalAnswer "q" ["ctx"] genInternalOk
      = ["Hello", " world", internalFooter] ∧
    (generateInternalAnswer "q" ["ctx"] genInternalOk).getLast? = some internalFooter := by
  have h := internal_stream_footer_last "q" ["ctx"] genInternalOk rfl
  exact ⟨by rw [h.1]; decide, h.2⟩

/-- C6 counterexample: with an error-free stream and no citations, no
yielded element even contains the text "Source: web search"; the
terminal footer is the literal "**Source:** Google Search" trailer. -/
theorem web_footer_not_web_search_literal :
    (generateWebSearchAnswer "q" (fun _ _ => ⟨[⟨"hello", []⟩], none⟩)).all
        (fun ch => !(strContains ch "Source: web search")) = true ∧
    (generateWebSearchAnswer "q" (fun _ _ => ⟨[⟨"hello", []⟩], none⟩)).getLast?
      = some "\n\n---\n**Source:** Google Search" := by
  decide

/-- C6 (amended): when the web stream completes without error, the
output is the non-empty text chunks verbatim followed by, as final
elements, either the numbered source list (≥ 1 unique citation) or the
generic "**Source:** Google Search" trailer (none). -/
theorem web_stream_footer_last (question : String)
    (gen : String → String → WebStreamOutcome)
    (h : (gen webSystemPrompt question).failed = none) :
    (collectSources (gen webSystemPrompt question).events = [] →
      generateWebSearchAnswer question gen
        = (((gen webSystemPrompt question).events.map (fun e => e.text)).filter
            (fun t => t != ""))
          ++ ["\n\n---\n**Source:** Google Search"]) ∧
    (collectSources (gen webSystemPrompt question).events ≠ [] →
      generateWebSearchAnswer question gen
        = (((gen webSystemPrompt question).events.map (fun e => e.text)).filter
            (fun t => t != ""))
          ++ "\n\n---\n**Sources:**\n"
            :: sourceLines
                (jsMapDedup (collectSources (gen webSystemPrompt question).events))) := by
  constructor
  · intro he
    simp only [generateWebSearchAnswer]
    rw [h]
    simp [webSearchFooter, he]
  · intro hne
    have hpos : (collectSources (gen webSystemPrompt question).events).length > 0 :=
      List.length_pos.mpr hne
    simp only [generateWebSearchAnswer]
    rw [h]
    simp [webSearchFooter, hpos]

/-- A concrete error-free web stream with no citations. -/
def genWebNoCite : String → String → WebStreamOutcome :=
  fun _ _ => ⟨[⟨"hi", []⟩], none⟩

/-- A concrete error-free web stream with one citation. -/
def genWebOneCite : String → String → WebStreamOutcome :=
  fun _ _ => ⟨[⟨"hi", [⟨"T", "u"⟩]⟩], none⟩

theorem web_stream_footer_last_witness :
    generateWebSearchAnswer "q" genWebNoCite
      = ["hi", "\n\n---\n**Source:** Google Search"] ∧
    generateWebSearchAnswer "q" genWebOneCite
      = ["hi", "\n\n---\n**Sources:**\n", "1. [T](u)\n"] := by
  constructor
  · rw [(web_stream_footer_last "q" genWebNoCite rfl).1 (by decide)]
    decide
  · rw [(web_stream_footer_last "q" genWebOneCite rfl).2 (by decide)]
    decide

/-- C7: the citation list rendered in the web footer is exactly the
first-occurrence-per-URL dedup of the qualifying citation stream, so a
repeated URL keeps only its first-seen title, in insertion order, and
the rendered URLs are pairwise distinct. -/
theorem citation_dedup_first_wins (events : List WebChunk) :
    collectSources events = dedupFirst (citeStream events) ∧
    jsMapDedup (collectSources events) = dedupFirst (citeStream events) ∧
    ((collectSources events).map (fun c => c.url)).Nodup := by
  have h1 := collectSources_eq_dedupFirst events
  have h3 : ((collectSources events).map (fun c => c.url)).Nodup := by
    rw [h1]; exact dedupFirst_urls_nodup _
  exact ⟨h1, by rw [jsMapDedup_eq_self _ h3, h1], h3⟩

example :
    jsMapDedup (collectSources [⟨"t", [⟨"T1", "u"⟩]⟩, ⟨"s", [⟨"T2", "u"⟩]⟩])
      = [⟨"T1", "u"⟩] := by
  decide

/-! ## Embedding generation (lib/openai.ts) and knowledge writes
(app/api/admin/knowledge/route.ts)

The embedding provider is opaque: an abstract function `E` from text to
vectors.  `generateEmbedding` is the repository wrapper around it. -/

/-- The text `generateEmbedding` (lib/openai.ts lines 221–230) hands to
the embedding provider: the question alone, or question and answer
joined when an answer argument is passed. -/
def embedInput (question : String) (answer : Option String) : String :=
  match answer with
  | some a => question ++ "\n\n" ++ a
  | none => question

/-- Model of `generateEmbedding` over an abstract provider `E`. -/
def generateEmbedding {V : Type} (E : String → V) (question : String)
    (answer : Option String) : V :=
  E (embedInput question answer)

/-- A `knowledge_base` row as written by the admin knowledge route. -/
structure KnowledgeEntry (V : Type) where
  question : String
  answer : String
  embedding : V
deriving DecidableEq, Repr

/-- POST /api/admin/knowledge (route.ts lines 40–100): create a
knowledge entry, embedding generated from the question only. -/
def knowledgePOST {V : Type} (E : String → V) (question answer : String) :
    Except (String × Nat) (KnowledgeEntry V) :=
  if question = "" ∨ answer = "" then
    Except.error ("Question and answer are required", 400)
  else
    Except.ok ⟨jsTrim question, jsTrim answer, generateEmbedding E question none⟩

/-- PUT /api/admin/knowledge (route.ts lines 104–154): administrative
edit, embedding regenerated from the (possibly new) question only. -/
def knowledgePUT {V : Type} (E : String → V) (id question answer : String) :
    Except (String × Nat) (KnowledgeEntry V) :=
  if id = "" ∨ question = "" ∨ answer = "" then
    Except.error ("ID, question, and answer are required", 400)
  else
    Except.ok ⟨jsTrim question, jsTrim answer, generateEmbedding E question none⟩

/-- The query embedding computed by the chat route (route.ts line 90). -/
def chatQueryEmbedding {V : Type} (E : String → V) (question : String) : V :=
  generateEmbedding E question none

/-- C8: the create path, the administrative-edit path and the retrieval
query path all obtain their embedding from the one `generateEmbedding`
wrapper applied to the question text only — the same provider value
`E question` in all three places. -/
theorem embedding_question_only {V : Type} (E : String → V)
    (id question answer : String)
    (hid : id ≠ "") (hq : question ≠ "") (ha : answer ≠ "") :
    (∃ entry, knowledgePOST E question answer = Except.ok entry ∧
      entry.embedding = E question) ∧
    (∃ entry, knowledgePUT E id question answer = Except.ok entry ∧
      entry.embedding = E question) ∧
    chatQueryEmbedding E question = E question := by
  have hpost : knowledgePOST E question answer
      = Except.ok ⟨jsTrim question, jsTrim answer, generateEmbedding E question none⟩ := by
    unfold knowledgePOST
    rw [if_neg (by push_neg; exact ⟨hq, ha⟩)]
  have hput : knowledgePUT E id question answer
      = Except.ok ⟨jsTrim question, jsTrim answer, generateEmbedding E question none⟩ := by
    unfold knowledgePUT
    rw [if_neg (by push_neg; exact ⟨hid, hq, ha⟩)]
  exact ⟨⟨_, hpost, rfl⟩, ⟨_, hput, rfl⟩, rfl⟩

theorem embedding_question_only_witness :
    (∃ entry, knowledgePOST String.length "hi" "ans" = Except.ok entry ∧
      entry.embedding = String.length "hi") ∧
    (∃ entry, knowledgePUT String.length "7" "hi" "ans" = Except.ok entry ∧
      entry.embedding = String.length "hi") ∧
    chatQueryEmbedding String.length "hi" = String.length "hi" :=
  embedding_question_only String.length "7" "hi" "ans"
    (by decide) (by decide) (by decide)

/-! ## The deduplicating queue writer (route.ts lines 11–62 and
supabase/add_inbox_embeddings.sql)

Similarities are rationals; cosine similarity between stored embeddings
is an abstract function `sim` supplied by the vector store model. -/

/-- A row of the `admin_queue` table. -/
structure QueueEntry (V : Type) where
  id : Nat
  user_question : String
  status : String
  embedding : Option V
deriving DecidableEq, Repr

/-- A row returned by the `match_inbox_questions` RPC. -/
structure InboxMatch where
  id : Nat
  user_question : String
  similarity : ℚ
deriving DecidableEq, Repr

/-- Similarity `1 - (embedding <=> query)` of a row; rows without an embedding are
filtered out before this value is used. -/
def rowSimilarity {V : Type} (sim : V → V → ℚ) (query : V)
    (r : QueueEntry V) : ℚ :=
  match r.embedding with
  | some e => sim e query
  | none => 0

/-- The WHERE clause of `match_inbox_questions`: embedding present,
status pending, similarity at least the threshold. -/
def pendingSimilarAbove {V : Type} (sim : V → V → ℚ) (query : V) (θ : ℚ)
    (r : QueueEntry V) : Bool :=
  r.embedding.isSome && r.status == "pending"
    && decide (θ ≤ rowSimilarity sim query r)

/-- Insertion into a list sorted by `le` (model of the ORDER BY of the RPC). -/
def insertSortedBy {α : Type} (le : α → α → Bool) (a : α) : List α → List α
  | [] => [a]
  | b :: bs => if le a b then a :: b :: bs else b :: insertSortedBy le a bs

/-- Insertion sort by `le`. -/
def sortBy {α : Type} (le : α → α → Bool) : List α → List α
  | [] => []
  | a :: as => insertSortedBy le a (sortBy le as)

/-- Model of `match_inbox_questions` (add_inbox_embeddings.sql lines 11–36):
pending rows with an embedding at similarity ≥ `match_threshold`,
ordered by ascending distance (descending similarity), limited to
`match_count`. -/
def match_inbox_questions {V : Type} (sim : V → V → ℚ)
    (table : List (QueueEntry V)) (query_embedding : V)
    (match_threshold : ℚ) (match_count : Nat) : List InboxMatch :=
  let candidates := table.filter (pendingSimilarAbove sim query_embedding match_threshold)
  let sorted := sortBy
    (fun a b => decide (rowSimilarity sim query_embedding b
      ≤ rowSimilarity sim query_embedding a))
    candidates
  (sorted.take match_count).map
    (fun r => ⟨r.id, r.user_question, rowSimilarity sim query_embedding r⟩)

/-- Result of one `addToAdminQueue` invocation: the resulting table,
whether an insert was attempted, and whether a row was inserted. -/
structure EnqueueResult (V : Type) where
  table : List (QueueEntry V)
  insertAttempted : Bool
  inserted : Bool
deriving DecidableEq, Repr

/-- Model of `addToAdminQueue` (app/api/chat/route.ts lines 11–62).
`inboxCheckError` is the outcome of the duplicate-check RPC call
(`some e` models `inboxCheckError` being set: the code logs and
continues to the insert); `insertError` models the insert call
failing. -/
def addToAdminQueue {V : Type} (sim : V → V → ℚ)
    (table : List (QueueEntry V)) (question : String) (questionEmbedding : V)
    (inboxCheckError : Option String) (insertError : Option String)
    (newId : Nat) : EnqueueResult V :=
  let dupFound : Bool :=
    match inboxCheckError with
    | some _ => false
    | none =>
      decide (0 < (match_inbox_questions sim table questionEmbedding (85/100) 1).length)
  if dupFound then
    ⟨table, false, false⟩
  else
    match insertError with
    | some _ => ⟨table, true, false⟩
    | none =>
      ⟨table ++ [⟨newId, jsTrim question, "pending", some questionEmbedding⟩],
        true, true⟩

lemma insertSortedBy_length {α : Type} (le : α → α → Bool) (a : α) :
    ∀ l : List α, (insertSortedBy le a l).length = l.length + 1
  | [] => rfl
  | b :: bs => by
    simp only [insertSortedBy]
    by_cases h : le a b = true
    · rw [if_pos h]
      rfl
    · rw [if_neg h]
      simp [insertSortedBy_length le a bs]

lemma sortBy_length {α : Type} (le : α → α → Bool) :
    ∀ l : List α, (sortBy le l).length = l.length
  | [] => rfl
  | a :: as => by
    simp only [sortBy]
    rw [insertSortedBy_length, sortBy_length le as, List.length_cons]

lemma match_inbox_one_eq_nil_iff {V : Type} (sim : V → V → ℚ)
    (table : List (QueueEntry V)) (query : V) (θ : ℚ) :
    match_inbox_questions sim table query θ 1 = []
      ↔ table.filter (pendingSimilarAbove sim query θ) = [] := by
  unfold match_inbox_questions
  constructor
  · intro h
    have h1 := List.map_eq_nil_iff.mp h
    rcases List.take_eq_nil_iff.mp h1 with h2 | h2
    · exact absurd h2 one_ne_zero
    · have h3 := congrArg List.length h2
      rw [sortBy_length] at h3
      exact List.length_eq_zero.mp h3
  · intro h
    rw [h]
    rfl

/-- C4 counterexample: with an empty pending queue (so the duplicate
check finds nothing) the writer inserts, but the stored question text is
the trimmed text `"q"`, not the given text `" q "`. -/
theorem enqueue_verbatim_counterexample :
    (addToAdminQueue (fun _ _ => (0 : ℚ)) ([] : List (QueueEntry Nat)) " q " 0
        none none 1).inserted = true ∧
    (addToAdminQueue (fun _ _ => (0 : ℚ)) ([] : List (QueueEntry Nat)) " q " 0
        none none 1).table
      = [⟨1, "q", "pending", some 0⟩] ∧
    ("q" : String) ≠ " q " := by
  decide

/-- C4 (amended): when the duplicate check succeeds, a pending row with
similarity ≥ 0.85 blocks the insert; if every pending row is below 0.85
(and the insert call succeeds) a new pending row is appended carrying
the trimmed question text and the given embedding. -/
theorem enqueue_dedup_threshold {V : Type} (sim : V → V → ℚ)
    (table : List (QueueEntry V)) (question : String) (emb : V)
    (insertError : Option String) (newId : Nat) :
    ((∃ r ∈ table, r.status = "pending" ∧
        ∃ e, r.embedding = some e ∧ (85/100 : ℚ) ≤ sim e emb) →
      addToAdminQueue sim table question emb none insertError newId
        = ⟨table, false, false⟩) ∧
    ((∀ r ∈ table, r.status = "pending" →
        ∀ e, r.embedding = some e → sim e emb < 85/100) →
      addToAdminQueue sim table question emb none none newId
        = ⟨table ++ [⟨newId, jsTrim question, "pending", some emb⟩],
            true, true⟩) := by
  constructor
  · rintro ⟨r, hr, hst, e, hemb, hsim⟩
    have hcand : pendingSimilarAbove sim emb (85/100) r = true := by
      unfold pendingSimilarAbove rowSimilarity
      rw [hemb, hst]
      simpa using hsim
    have hne : table.filter (pendingSimilarAbove sim emb (85/100)) ≠ [] := by
      intro hnil
      have hmem : r ∈ table.filter (pendingSimilarAbove sim emb (85/100)) :=
        List.mem_filter.mpr ⟨hr, hcand⟩
      rw [hnil] at hmem
      exact absurd hmem (List.not_mem_nil r)
    have hlen : 0 < (match_inbox_questions sim table emb (85/100) 1).length :=
      List.length_pos.mpr
        (fun hnil => hne ((match_inbox_one_eq_nil_iff sim table emb (85/100)).mp hnil))
    unfold addToAdminQueue
    rw [if_pos (by simpa using hlen)]
  · intro hall
    have hfil : table.filter (pendingSimilarAbove sim emb (85/100)) = [] := by
      apply List.filter_eq_nil_iff.mpr
      intro r hr hpr
      unfold pendingSimilarAbove at hpr
      simp only [Bool.and_eq_true, beq_iff_eq, decide_eq_true_eq,
        Option.isSome_iff_exists] at hpr
      rcases hpr with ⟨⟨⟨e, hemb⟩, hst⟩, hsim⟩
      rw [show rowSimilarity sim emb r = sim e emb from by
        unfold rowSimilarity; rw [hemb]] at hsim
      exact absurd hsim (not_le.mpr (hall r hr hst e hemb))
    have hmatch := (match_inbox_one_eq_nil_iff sim table emb (85/100)).mpr hfil
    unfold addToAdminQueue
    rw [hmatch, if_neg (by simp)]

theorem enqueue_dedup_threshold_witness :
    addToAdminQueue (fun _ _ => (9 : ℚ)/10)
        [⟨0, "x", "pending", some 7⟩] "hi" (3 : Nat) none none 2
      = ⟨[⟨0, "x", "pending", some 7⟩], false, false⟩ ∧
    addToAdminQueue (fun _ _ => (9 : ℚ)/10)
        ([] : List (QueueEntry Nat)) "hi" 3 none none 2
      = ⟨[⟨2, "hi", "pending", some 3⟩], true, true⟩ := by
  constructor
  · exact (enqueue_dedup_threshold (fun _ _ => (9 : ℚ)/10)
      [⟨0, "x", "pending", some 7⟩] "hi" 3 none 2).1
      ⟨⟨0, "x", "pending", some 7⟩, by decide, rfl, 7, rfl, by norm_num⟩
  · exact (enqueue_dedup_threshold (fun _ _ => (9 : ℚ)/10)
      ([] : List (QueueEntry Nat)) "hi" 3 none 2).2 (by simp)

/-- C10: when the duplicate-check call itself errors, `addToAdminQueue`
does not abort — it proceeds to attempt the insert regardless of the
table contents, and when the insert call succeeds the question is
enqueued as a pending row. -/
theorem enqueue_check_error_proceeds {V : Type} (sim : V → V → ℚ)
    (table : List (QueueEntry V)) (question : String) (emb : V)
    (err : String) (insertError : Option String) (newId : Nat) :
    (addToAdminQueue sim table question emb (some err) insertError
        newId).insertAttempted = true ∧
    addToAdminQueue sim table question emb (some err) none newId
      = ⟨table ++ [⟨newId, jsTrim question, "pending", some emb⟩],
          true, true⟩ := by
  constructor
  · unfold addToAdminQueue
    cases insertError <;> rfl
  · rfl

/-! ## The chat route orchestrator (app/api/chat/route.ts, POST)

The route is modelled over an environment of external-call outcomes.
`enqueueArgs` records the arguments of each fire-and-forget
`addToAdminQueue` invocation (the queue mutation itself is
`addToAdminQueue` above); the `Calls` counters record how many times
each external capability was invoked. -/

/-- A `match_documents` row (knowledge base match). -/
structure MatchRow where
  question : String
  answer : String
  similarity : ℚ
deriving DecidableEq, Repr

/-- The response value of the route: a JSON error envelope with an HTTP
status, or a streamed plain-text body (the list of chunks). -/
inductive ChatResponse where
  | errorJson (message : String) (status : Nat)
  | stream (chunks : List String)
deriving DecidableEq, Repr

/-- Outcomes of the external calls the route makes. -/
structure ChatEnv (V : Type) where
  sessionOk : Bool
  embed : String → Except String V
  matchDocuments : V → ℚ → Nat → Except String (List MatchRow)
  judgeGen : String → Except String String
  internalGen : String → String → StreamOutcome
  webGen : String → String → WebStreamOutcome

/-- Observable result of one route invocation. -/
structure PostResult (V : Type) where
  response : ChatResponse
  embedCalls : Nat
  judgeGenCalls : Nat
  answerGenCalls : Nat
  enqueueArgs : List (String × V)
  judgment : Option String

/-- Model of `POST` (app/api/chat/route.ts lines 64–213).  The
`match.answer || match.content` fallback of line 112 is modelled as the
`answer` field (no claim depends on the legacy `content` column). -/
def POST {V : Type} (env : ChatEnv V) (question : String) : PostResult V :=
  if !env.sessionOk then
    ⟨ChatResponse.errorJson "Unauthorized" 401, 0, 0, 0, [], none⟩
  else if question = "" then
    ⟨ChatResponse.errorJson "Question is required" 400, 0, 0, 0, [], none⟩
  else
    match env.embed question with
    | Except.error _ =>
      ⟨ChatResponse.errorJson "Internal server error" 500, 1, 0, 0, [], none⟩
    | Except.ok queryEmbedding =>
      match env.matchDocuments queryEmbedding (50/100) 5 with
      | Except.error _ =>
        ⟨ChatResponse.errorJson "Failed to search knowledge base" 500,
          1, 0, 0, [], none⟩
      | Except.ok rows =>
        let dbChunks := rows.map (fun m => m.answer)
        let jr :=
          if dbChunks.length > 0 then
            judgeContextRelevance question dbChunks env.judgeGen
          else
            ⟨"NO", 0⟩
        if jr.verdict = "YES" then
          ⟨ChatResponse.stream
              (generateInternalAnswer question dbChunks env.internalGen),
            1, jr.genCalls, 1, [], some jr.verdict⟩
        else
          ⟨ChatResponse.stream (generateWebSearchAnswer question env.webGen),
            1, jr.genCalls, 1, [(question, queryEmbedding)], some jr.verdict⟩

/-- C2: the judge on an empty chunk list returns `"NO"` making zero
generation calls, and on a route invocation whose knowledge query
returns no matches the judgment is `"NO"` with zero judge generation
calls. -/
theorem judge_empty_chunks {V : Type} (env : ChatEnv V) (question : String)
    (gen : String → Except String String) :
    judgeContextRelevance question [] gen = ⟨"NO", 0⟩ ∧
    (∀ v, env.sessionOk = true → question ≠ "" →
      env.embed question = Except.ok v →
      env.matchDocuments v (50/100) 5 = Except.ok [] →
      (POST env question).judgment = some "NO" ∧
      (POST env question).judgeGenCalls = 0) := by
  refine ⟨rfl, ?_⟩
  intro v hs hq he hm
  unfold POST
  rw [hs]
  simp only [Bool.not_true, Bool.false_eq_true, if_false, if_neg hq]
  rw [he]
  dsimp only
  rw [hm]
  exact ⟨rfl, rfl⟩

/-- A concrete environment whose knowledge query returns no matches. -/
def envNoMatches : ChatEnv Nat :=
  ⟨true, fun _ => Except.ok 5, fun _ _ _ => Except.ok [],
    fun _ => Except.ok "YES", fun _ _ => ⟨[], none⟩, fun _ _ => ⟨[], none⟩⟩

theorem judge_empty_chunks_witness :
    (POST envNoMatches "hi").judgment = some "NO" ∧
    (POST envNoMatches "hi").judgeGenCalls = 0 :=
  (judge_empty_chunks envNoMatches "hi" (fun _ => Except.ok "YES")).2
    5 rfl (by decide) rfl rfl

/-- C3: under a `"NO"` judgment the route makes exactly one enqueue
invocation, passing the question together with the embedding returned by
the single embedding call; under a `"YES"` judgment it makes none. -/
theorem web_path_single_enqueue {V : Type} (env : ChatEnv V)
    (question : String) (v : V)
    (h : env.embed question = Except.ok v) :
    ((POST env question).judgment = some "NO" →
      (POST env question).enqueueArgs = [(question, v)] ∧
      (POST env question).embedCalls = 1) ∧
    ((POST env question).judgment = some "YES" →
      (POST env question).enqueueArgs = []) := by
  unfold POST
  by_cases hs : env.sessionOk = true
  · rw [hs]
    simp only [Bool.not_true, Bool.false_eq_true, if_false]
    by_cases hq : question = ""
    · rw [if_pos hq]
      simp
    · rw [if_neg hq, h]
      dsimp only
      cases hm : env.matchDocuments v (50/100) 5 with
      | error e => simp
      | ok rows =>
        dsimp only
        by_cases hv :
            (if (rows.map (fun m => m.answer)).length > 0 then
                judgeContextRelevance question (rows.map (fun m => m.answer))
                  env.judgeGen
              else ⟨"NO", 0⟩).verdict = "YES"
        · rw [if_pos hv]
          simp only [List.length_map, gt_iff_lt] at hv
          simp [hv]
        · rw [if_neg hv]
          simp only [List.length_map, gt_iff_lt] at hv
          simp [hv]
  · rw [Bool.eq_false_iff.mpr hs]
    simp

theorem web_path_single_enqueue_witness :
    ((POST envNoMatches "hi").judgment = some "NO" →
      (POST envNoMatches "hi").enqueueArgs = [("hi", 5)] ∧
      (POST envNoMatches "hi").embedCalls = 1) ∧
    ((POST envNoMatches "hi").judgment = some "YES" →
      (POST envNoMatches "hi").enqueueArgs = []) :=
  web_path_single_enqueue envNoMatches "hi" 5 rfl

/-- C9: if the embedding call or the knowledge vector query fails, the
route returns a JSON error response with status 500, streams nothing,
makes no judge or answer generation call, and makes no enqueue
invocation. -/
theorem retrieval_failure_fails_hard {V : Type} (env : ChatEnv V)
    (question : String) (hs : env.sessionOk = true) (hq : question ≠ "") :
    (∀ e, env.embed question = Except.error e →
      POST env question
        = ⟨ChatResponse.errorJson "Internal server error" 500,
            1, 0, 0, [], none⟩) ∧
    (∀ v e, env.embed question = Except.ok v →
      env.matchDocuments v (50/100) 5 = Except.error e →
      POST env question
        = ⟨ChatResponse.errorJson "Failed to search knowledge base" 500,
            1, 0, 0, [], none⟩) := by
  constructor
  · intro e he
    unfold POST
    rw [hs]
    simp only [Bool.not_true, Bool.false_eq_true, if_false, if_neg hq]
    rw [he]
  · intro v e he hm
    unfold POST
    rw [hs]
    simp only [Bool.not_true, Bool.false_eq_true, if_false, if_neg hq]
    rw [he]
    dsimp only
    rw [hm]

/-- A concrete environment whose embedding call throws. -/
def envEmbedFails : ChatEnv Nat :=
  ⟨true, fun _ => Except.error "boom", fun _ _ _ => Except.ok [],
    fun _ => Except.ok "YES", fun _ _ => ⟨[], none⟩, fun _ _ => ⟨[], none⟩⟩

/-- A concrete environment whose knowledge vector query throws. -/
def envSearchFails : ChatEnv Nat :=
  ⟨true, fun _ => Except.ok 5, fun _ _ _ => Except.error "db down",
    fun _ => Except.ok "YES", fun _ _ => ⟨[], none⟩, fun _ _ => ⟨[], none⟩⟩

theorem retrieval_failure_fails_hard_witness :
    POST envEmbedFails "hi"
      = ⟨ChatResponse.errorJson "Internal server error" 500,
          1, 0, 0, [], none⟩ ∧
    POST envSearchFails "hi"
      = ⟨ChatResponse.errorJson "Failed to search knowledge base" 500,
          1, 0, 0, [], none⟩ :=
  ⟨(retrieval_failure_fails_hard envEmbedFails "hi" rfl (by decide)).1
      "boom" rfl,
    (retrieval_failure_fails_hard envSearchFails "hi" rfl (by decide)).2
      5 "db down" rfl rfl⟩
